import Mathlib

/-
Verification development for the media-sync storage driver layer
(src/drivers.py). The Python module is shallowly embedded: each driver
method becomes a Lean function over an explicit model of the backend
state (a list of stored object keys / files / blobs), Python exceptions
become an explicit error type threaded through `Except`, and the
backend client calls that a method performs are either modelled by a
small in-memory server semantics or passed in as the response the
client call returns, so that exception-wrapping behaviour can be
stated for every possible client outcome.
-/

/-- Python exceptions that occur in drivers.py: OS-level errors
(`OSError`, `shutil.SameFileError`, `FileNotFoundError`), the MinIO
client error `S3Error` (which carries a `code`), the Azure client
error `AzureError`, any other exception from the Google API client,
and the module's own `DriverError`. -/
inductive PyExn where
  | osError (msg : String)
  | s3Error (code : String) (msg : String)
  | azureError (msg : String)
  | googleApiError (msg : String)
  | driverError (msg : String)
deriving Repr, DecidableEq

/-- The text `str(e)` of an exception, interpolated into `DriverError`
messages by the drivers. -/
def PyExn.text : PyExn → String
  | .osError m => m
  | .s3Error code m => "S3 operation failed; code: " ++ code ++ ", message: " ++ m
  | .azureError m => m
  | .googleApiError m => m
  | .driverError m => m

/-- Whether an exception is the uniform `DriverError` kind. -/
def PyExn.isDriverError : PyExn → Bool
  | .driverError _ => true
  | _ => false

/-- Python truthiness of an optional string: `None` and `""` are falsy.
Used wherever drivers.py writes `if some_string:`. -/
def optTruthy (o : Option String) : Option String :=
  match o with
  | none => none
  | some s => if s = "" then none else some s

/-- Python `s.startswith(p)` (character-based, like CPython). -/
def strStartsWith (s p : String) : Bool := p.toList.isPrefixOf s.toList

/-- Python `s.endswith(p)`. -/
def strEndsWith (s p : String) : Bool := p.toList.isSuffixOf s.toList

/-- Python slicing `s[n:]` by characters. -/
def strDrop (s : String) (n : Nat) : String := String.mk (s.toList.drop n)

/-- Python `s.lower()` (ASCII case folding suffices here). -/
def strLower (s : String) : String := String.mk (s.toList.map Char.toLower)

/-- POSIX `os.path.join` for two components, as used by LocalDriver. -/
def osPathJoin (a b : String) : String :=
  if strStartsWith b "/" then b
  else if a = "" ∨ strEndsWith a "/" then a ++ b
  else a ++ "/" ++ b

/-- Occurrence of `needle` as a contiguous sublist. -/
def subOccursIn (needle : List Char) : List Char → Bool
  | [] => needle.isEmpty
  | c :: cs => needle.isPrefixOf (c :: cs) || subOccursIn needle cs

/-- Python `needle in hay` on strings (substring containment). -/
def strContains (hay needle : String) : Bool :=
  subOccursIn needle.toList hay.toList

/-- The `DriverType` enum of drivers.py. -/
inductive DriverType where
  | LOCAL
  | MINIO_
  | GOOGLE_DRIVE
  | AZURE
deriving Repr, DecidableEq

/-- The `value` attribute of each enum member. -/
def DriverType.value : DriverType → String
  | .LOCAL => "local"
  | .MINIO_ => "minio"
  | .GOOGLE_DRIVE => "google_drive"
  | .AZURE => "azure"

/-- What a Python `__eq__` call can evaluate to here: a real boolean, or
`None` (the implicit return value when `DriverType.__eq__` falls off the
end of the function body for a non-string comparand). -/
inductive PyEqResult where
  | bool (b : Bool)
  | pynone
deriving Repr, DecidableEq

/-- The values drivers.py compares against a `DriverType` member: a plain
configuration string, another `DriverType` member, or any other
(non-string) Python object. -/
inductive PyOperand where
  | str (s : String)
  | enum (d : DriverType)
  | other
deriving Repr, DecidableEq

/-- `DriverType.__eq__(self, value)`: when `value` is a string it returns
`self.value == value`; for every other operand the `isinstance` guard
fails and the method implicitly returns `None`. -/
def DriverType.eqMethod (d : DriverType) : PyOperand → PyEqResult
  | .str s => .bool (d.value == s)
  | _ => .pynone

/-- Value of the Python expression `x == DriverType.MEMBER` as evaluated
in `create_driver`. For a string `x`, `str.__eq__` returns
`NotImplemented` and Python falls back to the reflected
`DriverType.__eq__(member, x)`; for a `DriverType` or any other operand
`DriverType.__eq__` runs and yields `None`. -/
def pyEqValue (x : PyOperand) (d : DriverType) : PyEqResult :=
  match x with
  | .str s => d.eqMethod (.str s)
  | .enum d0 => d0.eqMethod (.enum d)
  | .other => d.eqMethod .other

/-- Python truthiness of an `==` outcome, as tested by the `if`/`elif`
chain in `create_driver` (`None` is falsy). -/
def PyEqResult.truthy : PyEqResult → Bool
  | .bool b => b
  | .pynone => false

/-- Which of the four driver classes `create_driver` instantiates. -/
inductive DriverKind where
  | localDriver
  | minioDriver
  | googleDriveDriver
  | azureDriver
deriving Repr, DecidableEq

/-- `create_driver(config)`: selects the driver by comparing
`config.driver` against each `DriverType` member in turn; `driver`
stays `None` when no comparison is truthy. Construction of the selected
driver is abstracted to its tag. -/
def create_driver (cfg_driver : PyOperand) : Option DriverKind :=
  if (pyEqValue cfg_driver .LOCAL).truthy then some .localDriver
  else if (pyEqValue cfg_driver .MINIO_).truthy then some .minioDriver
  else if (pyEqValue cfg_driver .GOOGLE_DRIVE).truthy then some .googleDriveDriver
  else if (pyEqValue cfg_driver .AZURE).truthy then some .azureDriver
  else none

/-
LocalDriver. The destination directory tree is modelled as the list of
file paths that exist; directories are not tracked separately
(`os.makedirs` on the destination directory is taken to succeed, the
faults modelled are the `shutil.copyfile` ones the code catches).
-/

/-- `LocalDriver.upload_file(src, obj_path)`: joins the destination root
with the object path, copies the source file there and returns the
destination path. `shutil.copyfile` fails with `SameFileError` when
source and destination are the same path and with `OSError` when the
source does not exist; both are caught and re-raised as `DriverError`
with the "Local driver error: " prefix. On success the destination
path is added to the file system. -/
def LocalDriver.upload_file (fs : List String) (dest_root src obj_path : String) :
    Except PyExn (String × List String) :=
  let dest := osPathJoin dest_root obj_path
  if fs.contains src then
    if src = dest then
      .error (.driverError ("Local driver error: " ++ src ++ " and " ++ dest
        ++ " are the same file"))
    else .ok (dest, dest :: fs)
  else
    .error (.driverError ("Local driver error: [Errno 2] No such file or directory: " ++ src))

/-- `LocalDriver.file_exists(obj_path)`: `os.path.exists` on the joined
destination path. -/
def LocalDriver.file_exists (fs : List String) (dest_root obj_path : String) : Bool :=
  fs.contains (osPathJoin dest_root obj_path)

/-- `LocalDriver.get_file_url(obj_path)`: returns the joined destination
path without checking existence. -/
def LocalDriver.get_file_url (dest_root obj_path : String) : String :=
  osPathJoin dest_root obj_path

/-
MinioDriver. The bucket is modelled as the list of stored entries; an
entry carries its object key and the `is_dir` flag that some
S3-compatible backends report for directory-marker entries.
-/

/-- One entry returned by the MinIO client: the object key and the
directory-marker flag. -/
structure MinioObj where
  object_name : String
  is_dir : Bool
deriving Repr, DecidableEq

/-- A call the MinioDriver issues against the MinIO client; used to state
which backend queries an operation performs. -/
inductive MinioCall where
  | statObject (bucket key : String)
  | listObjects (bucket : String) (pfx : Option String)
deriving Repr, DecidableEq

/-- The subpath prefixing step `if self.bucket_subpath: obj_path =
f"{subpath}/{obj_path}"` shared by upload_file, get_file_url and
file_exists. `self.bucket_subpath` is `None` or the configured value
stripped of leading/trailing slashes; truthiness ignores `""`. -/
def MinioDriver.scoped_key (subpath : Option String) (obj_path : String) : String :=
  match optTruthy subpath with
  | some sp => sp ++ "/" ++ obj_path
  | none => obj_path

/-- Server semantics of a successful `fput_object`: the key is stored as
a regular (non directory-marker) object. -/
def minioServerPut (bucket : List MinioObj) (key : String) : List MinioObj :=
  ⟨key, false⟩ :: bucket

/-- Server semantics of `stat_object`: succeeds when a regular object
with that key is stored, otherwise raises `S3Error` with code
`NoSuchKey`. -/
def minioServerStat (bucket : List MinioObj) (key : String) : Except PyExn Unit :=
  if bucket.any (fun o => o.object_name == key && !o.is_dir) then .ok ()
  else .error (.s3Error "NoSuchKey" "Object does not exist")

/-- Server semantics of `list_objects(bucket, prefix=..., recursive=True)`:
every stored entry whose key starts with the given prefix (all entries
when the prefix is `None`). -/
def minioServerList (bucket : List MinioObj) (pfx : Option String) : List MinioObj :=
  bucket.filter (fun o =>
    match pfx with
    | none => true
    | some p => strStartsWith o.object_name p)

/-- An `except S3Error as e: raise DriverError(pre + str(e))` handler:
only `S3Error` is converted; every other exception propagates. -/
def wrapIfS3 (pre : String) : PyExn → PyExn
  | .s3Error c m => .driverError (pre ++ PyExn.text (.s3Error c m))
  | e => e

/-- `MinioDriver.upload_file(src, obj_path)`: prefixes the object path
with the bucket subpath, calls `fput_object` (whose outcome, including
any exception it raises, is the `fputResult` argument: an `S3Error` on
the put, or an `OSError` while reading the source file) and returns
`base_url + "/" + res.object_name`. Only `S3Error` is wrapped into
`DriverError`. On success the server stores the key. -/
def MinioDriver.upload_file (subpath : Option String) (base_url : String)
    (bucket : List MinioObj) (obj_path : String) (fputResult : Except PyExn Unit) :
    Except PyExn (String × List MinioObj) :=
  let key := MinioDriver.scoped_key subpath obj_path
  match fputResult with
  | .ok _ => .ok (base_url ++ "/" ++ key, minioServerPut bucket key)
  | .error e => .error (wrapIfS3 "MinIO driver error: " e)

/-- `MinioDriver.list_files(prefix)`: when a bucket subpath is configured
it is given a trailing slash and prepended to the caller prefix (or used
alone when the caller prefix is falsy), the bucket is listed with that
effective prefix, directory-marker entries are skipped, and the subpath
directory prefix is stripped from each yielded name. -/
def MinioDriver.list_files (subpath : Option String) (pfx : Option String)
    (bucket : List MinioObj) : List String :=
  let effective_pfx : Option String :=
    match optTruthy subpath with
    | none => pfx
    | some sp =>
      let subpath_dir := if strEndsWith sp "/" then sp else sp ++ "/"
      match optTruthy pfx with
      | some p => some (subpath_dir ++ p)
      | none => some subpath_dir
  let strip_pfx : String :=
    match optTruthy subpath with
    | some sp => sp ++ "/"
    | none => ""
  (minioServerList bucket effective_pfx).filterMap (fun o =>
    if o.is_dir then none
    else if strip_pfx = "" then some o.object_name
    else if strStartsWith o.object_name strip_pfx then
      some (strDrop o.object_name strip_pfx.length)
    else some o.object_name)

/-- `MinioDriver.get_file_url(obj_path)`: prefixes the object path with
the bucket subpath and returns `base_url + "/" + obj_path` without
checking existence. -/
def MinioDriver.get_file_url (subpath : Option String) (base_url : String)
    (obj_path : String) : String :=
  base_url ++ "/" ++ MinioDriver.scoped_key subpath obj_path

/-- `MinioDriver.file_exists(obj_path)`: prefixes the object path with
the bucket subpath and issues a single `stat_object` HEAD request (the
`stat` argument is the client call: its response is whatever the server
answers for the requested key). Success means `True`; an `S3Error` with
code `NoSuchKey` means `False`; any other `S3Error` is re-raised as
`DriverError`; a non-`S3Error` exception would propagate. The second
component records the client calls the method issued. -/
def MinioDriver.file_exists (subpath : Option String) (bucket_name obj_path : String)
    (stat : String → Except PyExn Unit) : Except PyExn Bool × List MinioCall :=
  let key := MinioDriver.scoped_key subpath obj_path
  let res : Except PyExn Bool :=
    match stat key with
    | .ok _ => .ok true
    | .error (.s3Error code m) =>
      if code = "NoSuchKey" then .ok false
      else .error (.driverError ("MinIO driver exists error: " ++ PyExn.text (.s3Error code m)))
    | .error e => .error e
  (res, [.statObject bucket_name key])

/-- Construction of `self.base_url` in `MinioDriver.__init__`: a
virtual-hosted-style AWS URL when a region is configured (truthy) and
the endpoint mentions amazonaws, otherwise a path-style URL from the
endpoint and bucket name. -/
def MinioDriver.base_url (secure : Bool) (endpoint : String) (region : Option String)
    (bucket_name : String) : String :=
  let scheme := if secure then "https://" else "http://"
  match optTruthy region with
  | some r =>
    if strContains (strLower endpoint) "amazonaws" then
      scheme ++ bucket_name ++ ".s3." ++ r ++ ".amazonaws.com"
    else scheme ++ endpoint ++ "/" ++ bucket_name
  | none => scheme ++ endpoint ++ "/" ++ bucket_name

/-
GoogleDriveDriver. The resolved folder content is modelled as a list of
file records (id, display name, optional webViewLink); the URL cache
is an association list, `None` standing for a driver on which
`list_files` has not yet run (no `_url_cache` attribute). Listings are
modelled over the concatenation of all pages; the per-file cache/yield
logic is page-independent. Backend faults are not injected into the
point queries (the code wraps them into `DriverError`).
-/

/-- One file record in the resolved Drive folder, as returned by the
listing fields `files(name, webViewLink)`; `webViewLink` may be absent. -/
structure GFile where
  id : String
  name : String
  webViewLink : Option String
deriving Repr, DecidableEq

/-- The `_url_cache` dict: name to cached URL. Assignment conses in
front, lookup takes the most recent binding, matching dict update. -/
abbrev GCache := List (String × String)

/-- Dict lookup `cache[name]` / membership `name in cache`. -/
def GCache.lookup (c : GCache) (k : String) : Option String :=
  (c.find? (fun kv => kv.1 == k)).map (fun kv => kv.2)

/-- Dict access with the convention that a hit is returned as is; used
only to state theorems (`(lookup).getD ""`). -/
def GCache.value (c : GCache) (k : String) : String :=
  (GCache.lookup c k).getD ""

/-- The client-side filter `prefix is None or name.startswith(prefix)`
of `GoogleDriveDriver.list_files`. -/
def gdrivePfxMatch (pfx : Option String) (name : String) : Bool :=
  match pfx with
  | none => true
  | some p => strStartsWith name p

/-- The per-file loop of `GoogleDriveDriver.list_files`: for every file
of the folder (pages concatenated, folders excluded by the query), when
the name passes the prefix filter the pair (name, webViewLink or `""`)
is written into the URL cache and the name is yielded; otherwise the
file is neither yielded nor cached. -/
def gdriveListLoop (pfx : Option String) : List GFile → GCache → List String × GCache
  | [], cache => ([], cache)
  | f :: rest, cache =>
    if gdrivePfxMatch pfx f.name then
      let res := gdriveListLoop pfx rest ((f.name, f.webViewLink.getD "") :: cache)
      (f.name :: res.1, res.2)
    else gdriveListLoop pfx rest cache

/-- `GoogleDriveDriver.list_files(prefix)`: initializes `_url_cache` to
an empty dict when the attribute does not exist yet, then runs the
paginated listing loop. Returns the yielded names and the cache state
after a full consumption of the generator. -/
def GoogleDriveDriver.list_files (pfx : Option String) (files : List GFile)
    (cache : Option GCache) : List String × GCache :=
  gdriveListLoop pfx files (cache.getD [])

/-- The fallback point query of `get_file_url`: a `files().list` call
with an exact-name query (`pageSize=1`), returning the first matching
file's webViewLink (or `""` when the field is absent or no file
matches). The second component counts the backend calls issued. -/
def gdriveGetFileUrlQuery (files : List GFile) (obj_path : String) :
    Except PyExn String × Nat :=
  match files.find? (fun f => f.name == obj_path) with
  | some f => (.ok (f.webViewLink.getD ""), 1)
  | none => (.ok "", 1)

/-- `GoogleDriveDriver.get_file_url(obj_path)`: answered from `_url_cache`
when the attribute exists and holds the name (no backend call, even for
a cached empty string); otherwise falls back to the exact-name point
query. -/
def GoogleDriveDriver.get_file_url (cache : Option GCache) (files : List GFile)
    (obj_path : String) : Except PyExn String × Nat :=
  match cache with
  | some c =>
    match GCache.lookup c obj_path with
    | some u => (.ok u, 0)
    | none => gdriveGetFileUrlQuery files obj_path
  | none => gdriveGetFileUrlQuery files obj_path

/-- The point query of `file_exists`: exact-name `files().list` with
`pageSize=1`, reporting whether any file matched. -/
def gdriveFileExistsQuery (files : List GFile) (obj_path : String) :
    Except PyExn Bool × Nat :=
  (.ok (files.find? (fun f => f.name == obj_path)).isSome, 1)

/-- `GoogleDriveDriver.file_exists(obj_path)`: a `_url_cache` hit (key
membership, whatever the cached value) is proof of existence and costs
no backend call; otherwise the exact-name point query runs. -/
def GoogleDriveDriver.file_exists (cache : Option GCache) (files : List GFile)
    (obj_path : String) : Except PyExn Bool × Nat :=
  match cache with
  | some c =>
    if (GCache.lookup c obj_path).isSome then (.ok true, 0)
    else gdriveFileExistsQuery files obj_path
  | none => gdriveFileExistsQuery files obj_path

/-- `GoogleDriveDriver._file_link(file_id)`: `files().get(fileId,
fields="webViewLink")`, returning `file.get("webViewLink")` (absent
field gives Python `None`); a backend failure there is wrapped as
"Google Drive file link error: ". -/
def GoogleDriveDriver.file_link (files : List GFile) (file_id : String) :
    Except PyExn (Option String) :=
  match files.find? (fun f => f.id == file_id) with
  | some f => .ok f.webViewLink
  | none => .error (.driverError ("Google Drive file link error: file not found: " ++ file_id))

/-- `GoogleDriveDriver.upload_file(src, obj_path)`: `files().create`
makes a file named `obj_path` in the resolved folder (the backend
assigns `new_id` and `assigned_link`); any exception inside that `try`
(`createResult`) is caught by `except Exception` and re-raised as
`DriverError` with the "GoogleDrive driver error: " prefix. The
follow-up `_file_link` call resolves the sharable link. -/
def GoogleDriveDriver.upload_file (files : List GFile) (obj_path new_id : String)
    (assigned_link : Option String) (createResult : Except PyExn Unit) :
    Except PyExn (Option String × List GFile) :=
  match createResult with
  | .error e => .error (.driverError ("GoogleDrive driver error: " ++ PyExn.text e))
  | .ok _ =>
    let files2 : List GFile := ⟨new_id, obj_path, assigned_link⟩ :: files
    match GoogleDriveDriver.file_link files2 new_id with
    | .ok link => .ok (link, files2)
    | .error e => .error e

/-- The email check regex of `_get_share_with`: character class of the
local part `[a-zA-Z0-9_.+-]`. -/
def emailLocalChar (c : Char) : Bool :=
  c.isAlpha || c.isDigit || c == '_' || c == '.' || c == '+' || c == '-'

/-- Character class `[a-zA-Z0-9-]` of the domain label before the first
dot. -/
def emailDomChar (c : Char) : Bool :=
  c.isAlpha || c.isDigit || c == '-'

/-- Character class `[a-zA-Z0-9-.]` of the domain tail. -/
def emailTldChar (c : Char) : Bool :=
  c.isAlpha || c.isDigit || c == '-' || c == '.'

/-- Split a character list at the first occurrence of `c`, when any. -/
def splitAtFirst (c : Char) : List Char → Option (List Char × List Char)
  | [] => none
  | x :: xs =>
    if x == c then some ([], xs)
    else
      match splitAtFirst c xs with
      | some (a, b) => some (x :: a, b)
      | none => none

/-- Match of the anchored pattern
`^[a-zA-Z0-9_.+-]+@[a-zA-Z0-9-]+\.[a-zA-Z0-9-.]+$` against a whole
character list: none of the classes contains the at sign, and the first
domain class contains no dot, so a match splits deterministically at
the first at sign and then at the first dot of the remainder. -/
def emailCoreMatch (l : List Char) : Bool :=
  match splitAtFirst '@' l with
  | none => false
  | some (lp, rest) =>
    match splitAtFirst '.' rest with
    | none => false
    | some (d1, d2) =>
      !lp.isEmpty && lp.all emailLocalChar
        && !d1.isEmpty && d1.all emailDomChar
        && !d2.isEmpty && d2.all emailTldChar

/-- `re.match` of the email pattern: the pattern is anchored with a
dollar, which in Python also matches just before one trailing newline,
so a single trailing newline is tolerated. -/
def emailRegexMatch (s : String) : Bool :=
  let l := s.toList
  emailCoreMatch (if l.getLast? == some '\n' then l.dropLast else l)

/-- The `share_with` configuration value: a single string, a list of
strings, or any other shape. -/
inductive ShareWith where
  | str (s : String)
  | list (l : List String)
  | other

/-- `GoogleDriveDriver._get_share_with(config)`: a string is kept when it
matches the email regex, a list is filtered by the regex (failures
skipped silently), any other shape raises `DriverError`. An empty
result only prints a soft warning. -/
def GoogleDriveDriver.get_share_with : ShareWith → Except PyExn (List String)
  | .str s => .ok (if emailRegexMatch s then [s] else [])
  | .list l => .ok (l.filter emailRegexMatch)
  | .other => .error (.driverError "Google Drive sharing: Incorrect GoogleDrive shared_with settings")

/-- `GoogleDriveDriver._has_already_permission(email)`: whether some
permission of the folder carries this email address,
case-insensitively (`permissions` holds each permission's
`emailAddress`, `""` when absent). -/
def GoogleDriveDriver.has_already_permission (perms : List String) (email : String) : Bool :=
  perms.any (fun p => strLower p == strLower email)

/-- The init loop `for email in self._get_share_with(...): if email:
self._share_with(email)` together with `_share_with`: a grant
(`permissions().create`) is issued only when the address does not
already hold a permission; a successful grant adds the address to the
folder's permissions. Returns the final permission list and the number
of grant calls issued. Backend faults during permission listing or
creation are not injected (the code wraps them into `DriverError`). -/
def GoogleDriveDriver.share_loop : List String → List String → List String × Nat
  | [], perms => (perms, 0)
  | e :: rest, perms =>
    if e = "" then GoogleDriveDriver.share_loop rest perms
    else if GoogleDriveDriver.has_already_permission perms e then
      GoogleDriveDriver.share_loop rest perms
    else
      let res := GoogleDriveDriver.share_loop rest (e :: perms)
      (res.1, res.2 + 1)

/-- The sharing part of `GoogleDriveDriver.__init__`: validated addresses
from `_get_share_with` are pushed through the sharing loop. -/
def GoogleDriveDriver.init_sharing (sw : ShareWith) (perms : List String) :
    Except PyExn (List String × Nat) :=
  match GoogleDriveDriver.get_share_with sw with
  | .ok emails => .ok (GoogleDriveDriver.share_loop emails perms)
  | .error e => .error e


/-- Entries the listing loop prepends to the URL cache: one per yielded
file, most recent first. -/
def gdriveNewEntries (pfx : Option String) (fs : List GFile) : GCache :=
  ((fs.filter (fun f => gdrivePfxMatch pfx f.name)).map
    (fun f => (f.name, f.webViewLink.getD ""))).reverse

/-
AzureDriver. The container is modelled as the list of stored blob
names; `blob_client.url` as the container URL joined with the blob
name.
-/

/-- The canonical blob URL `blob_client.url`. -/
def AzureDriver.blob_url (container_url obj_path : String) : String :=
  container_url ++ "/" ++ obj_path

/-- An `except AzureError as e: raise DriverError(pre + str(e))` handler:
only `AzureError` is converted; every other exception propagates. -/
def wrapIfAzure (pre : String) : PyExn → PyExn
  | .azureError m => .driverError (pre ++ PyExn.text (.azureError m))
  | e => e

/-- `AzureDriver.upload_file(src, obj_path)`: resolves the blob client,
opens the local source (`openResult`: an `OSError` when the source
cannot be read), uploads the bytes with overwrite semantics
(`uploadResult`: an `AzureError` on backend failure) and returns the
blob URL. The `try` block catches only `AzureError`. On success the
blob name is stored in the container. -/
def AzureDriver.upload_file (blobs : List String) (container_url src obj_path : String)
    (openResult uploadResult : Except PyExn Unit) :
    Except PyExn (String × List String) :=
  let body : Except PyExn (String × List String) :=
    match openResult with
    | .error e => .error e
    | .ok _ =>
      match uploadResult with
      | .error e => .error e
      | .ok _ => .ok (AzureDriver.blob_url container_url obj_path, obj_path :: blobs)
  match body with
  | .ok r => .ok r
  | .error e => .error (wrapIfAzure "Azure driver error: " e)

/-- `AzureDriver.file_exists(obj_path)`: delegates to the native
existence probe `blob_client.exists()` (fault-free backend; an
`AzureError` would be wrapped as "Azure driver exists error"). -/
def AzureDriver.file_exists (blobs : List String) (obj_path : String) :
    Except PyExn Bool :=
  .ok (blobs.contains obj_path)

/-- `AzureDriver.get_file_url(obj_path)`: the blob URL, without any
existence check. -/
def AzureDriver.get_file_url (container_url obj_path : String) : String :=
  AzureDriver.blob_url container_url obj_path

/-
Helper lemmas about strings.
-/

/-- A string of length zero is the empty string. -/
theorem string_eq_empty_of_length_zero (s : String) (h : s.length = 0) : s = "" := by
  cases s with
  | mk data =>
    have hd : data = [] := List.length_eq_zero.mp h
    exact String.ext (by simp [hd])

/-- Appending to a non-empty string stays non-empty. -/
theorem append_ne_empty_left (a b : String) (h : a ≠ "") : a ++ b ≠ "" := by
  intro h2
  apply h
  apply string_eq_empty_of_length_zero
  have h3 := congrArg String.length h2
  rw [String.length_append, String.length_empty] at h3
  omega

/-- A string with a slash in the middle is never empty. -/
theorem mid_slash_ne_empty (a b : String) : a ++ "/" ++ b ≠ "" := by
  intro h
  have h2 := congrArg String.length h
  rw [String.length_append, String.length_append, String.length_empty] at h2
  have h3 : ("/" : String).length = 1 := rfl
  rw [h3] at h2
  omega

/-- A slash-terminated string is never empty. -/
theorem slash_suffix_ne_empty (a : String) : a ++ "/" ≠ "" := by
  intro h
  have h2 := congrArg String.length h
  rw [String.length_append, String.length_empty] at h2
  have h3 : ("/" : String).length = 1 := rfl
  rw [h3] at h2
  omega

/-- `os.path.join` with a non-empty first component is non-empty. -/
theorem osPathJoin_ne_empty (a b : String) (h : a ≠ "") : osPathJoin a b ≠ "" := by
  unfold osPathJoin
  by_cases hb : strStartsWith b "/"
  · simp only [hb, if_true]
    intro hbe
    rw [hbe] at hb
    exact absurd hb (by decide)
  · simp only [hb, if_false, Bool.false_eq_true]
    by_cases hae : a = "" ∨ strEndsWith a "/"
    · simp only [hae, if_true]
      exact append_ne_empty_left a b h
    · simp only [hae, if_false]
      exact append_ne_empty_left (a ++ "/") b (append_ne_empty_left a "/" h)

/-
Claim theorems.
-/

/-- C7: `create_driver` constructs exactly the driver matching the
configured backend kind string (local, minio, google_drive, azure) and
returns no driver (`None`) for any unrecognized kind; there is no
fallback or default backend. -/
theorem create_driver_selects_exactly :
    create_driver (.str "local") = some .localDriver ∧
    create_driver (.str "minio") = some .minioDriver ∧
    create_driver (.str "google_drive") = some .googleDriveDriver ∧
    create_driver (.str "azure") = some .azureDriver ∧
    ∀ s : String, s ≠ "local" → s ≠ "minio" → s ≠ "google_drive" → s ≠ "azure" →
      create_driver (.str s) = none := by
  refine ⟨by decide, by decide, by decide, by decide, ?_⟩
  intro s h1 h2 h3 h4
  have hc : create_driver (.str s)
      = if ("local" : String) == s then some DriverKind.localDriver
        else if ("minio" : String) == s then some DriverKind.minioDriver
        else if ("google_drive" : String) == s then some DriverKind.googleDriveDriver
        else if ("azure" : String) == s then some DriverKind.azureDriver
        else none := rfl
  have e1 : (("local" : String) == s) = false := beq_eq_false_iff_ne.mpr (Ne.symm h1)
  have e2 : (("minio" : String) == s) = false := beq_eq_false_iff_ne.mpr (Ne.symm h2)
  have e3 : (("google_drive" : String) == s) = false := beq_eq_false_iff_ne.mpr (Ne.symm h3)
  have e4 : (("azure" : String) == s) = false := beq_eq_false_iff_ne.mpr (Ne.symm h4)
  rw [hc, e1, e2, e3, e4]
  simp

/-- Witness for C7: an unrecognized backend kind yields no driver. -/
theorem create_driver_selects_exactly_witness : create_driver (.str "ftp") = none :=
  create_driver_selects_exactly.2.2.2.2 "ftp" (by decide) (by decide) (by decide) (by decide)

/-- C8: for every DriverType member and every string, the comparison
member == string evaluates to True exactly when the string equals the
member's underlying value. -/
theorem drivertype_eq_accepts_plain_string (d : DriverType) (s : String) :
    DriverType.eqMethod d (.str s) = .bool (d.value == s) ∧
    (DriverType.eqMethod d (.str s) = .bool true ↔ s = d.value) := by
  refine ⟨rfl, ?_⟩
  have hc : DriverType.eqMethod d (.str s) = .bool (d.value == s) := rfl
  rw [hc]
  constructor
  · intro h
    have hb : (d.value == s) = true := by injection h
    exact (eq_of_beq hb).symm
  · intro h
    rw [h, beq_self_eq_true]

/-- C9: `DriverType.__eq__` returns None for any non-string comparand,
so enum equality is not reflexive (`DriverType.LOCAL == DriverType.LOCAL`
is not True) and `create_driver` yields no driver when `config.driver`
holds an enum member. -/
theorem drivertype_eq_none_for_non_string :
    (∀ d d0 : DriverType, DriverType.eqMethod d (.enum d0) = .pynone) ∧
    (∀ d : DriverType, DriverType.eqMethod d .other = .pynone) ∧
    pyEqValue (.enum .LOCAL) .LOCAL = .pynone ∧
    PyEqResult.truthy (pyEqValue (.enum .LOCAL) .LOCAL) = false ∧
    (∀ d : DriverType, create_driver (.enum d) = none) :=
  ⟨fun _ _ => rfl, fun _ => rfl, rfl, rfl, fun _ => rfl⟩

/-- C10: `list_files` caches the empty string for a yielded file whose
listing entry carried no webViewLink; a later `get_file_url` for that
name is a cache hit returning `""` with no backend call, and
`file_exists` reports True from the same cache entry — for a file that
does exist in the folder (the direct point query also reports True). -/
theorem gdrive_cached_empty_url_hit :
    GoogleDriveDriver.list_files none [⟨"id1", "report.txt", none⟩] none
      = (["report.txt"], [("report.txt", "")]) ∧
    GoogleDriveDriver.get_file_url (some [("report.txt", "")])
        [⟨"id1", "report.txt", none⟩] "report.txt" = (.ok "", 0) ∧
    GoogleDriveDriver.file_exists (some [("report.txt", "")])
        [⟨"id1", "report.txt", none⟩] "report.txt" = (.ok true, 0) ∧
    GoogleDriveDriver.file_exists none [⟨"id1", "report.txt", none⟩] "report.txt"
      = (.ok true, 1) :=
  ⟨rfl, rfl, rfl, rfl⟩

/-- C3 counterexample: an OS-level error raised while opening the upload
source escapes `AzureDriver.upload_file` unwrapped — the except clause
catches only AzureError — so it is not true that every I/O failure
during upload surfaces as a DriverError. -/
theorem azure_upload_oserror_escapes :
    AzureDriver.upload_file [] "https://acct.blob.core.windows.net/media" "missing.jpg"
        "a.jpg" (.error (.osError "No such file or directory: missing.jpg")) (.ok ())
      = .error (.osError "No such file or directory: missing.jpg") ∧
    (PyExn.osError "No such file or directory: missing.jpg").isDriverError = false :=
  ⟨rfl, rfl⟩

/-- C3 (amended): every backend-client exception type a driver's handler
names is wrapped into a DriverError whose message carries the backend
family prefix and the underlying cause — Local wraps the copyfile
OSError/SameFileError, Minio wraps S3Error, Google Drive wraps any
exception of the create call, Azure wraps AzureError — but an OS-level
error raised while reading the upload source escapes the Minio and
Azure upload paths unwrapped. -/
theorem upload_wraps_client_errors :
    (∀ fs dest_root src obj_path e,
      LocalDriver.upload_file fs dest_root src obj_path = .error e →
      ∃ m, e = .driverError ("Local driver error: " ++ m)) ∧
    (∀ subpath base_url bucket obj_path c m,
      MinioDriver.upload_file subpath base_url bucket obj_path (.error (.s3Error c m))
        = .error (.driverError ("MinIO driver error: " ++ PyExn.text (.s3Error c m)))) ∧
    (∀ files obj_path new_id link e,
      GoogleDriveDriver.upload_file files obj_path new_id link (.error e)
        = .error (.driverError ("GoogleDrive driver error: " ++ PyExn.text e))) ∧
    (∀ blobs container_url src obj_path m,
      AzureDriver.upload_file blobs container_url src obj_path (.ok ())
          (.error (.azureError m))
        = .error (.driverError ("Azure driver error: " ++ PyExn.text (.azureError m)))) ∧
    (∀ blobs container_url src obj_path m uploadResult,
      AzureDriver.upload_file blobs container_url src obj_path (.error (.osError m))
          uploadResult
        = .error (.osError m)) ∧
    (∀ subpath base_url bucket obj_path m,
      MinioDriver.upload_file subpath base_url bucket obj_path (.error (.osError m))
        = .error (.osError m)) := by
  refine ⟨?_, ?_, ?_, ?_, ?_, ?_⟩
  · intro fs dest_root src obj_path e h
    simp only [LocalDriver.upload_file] at h
    split at h
    · split at h
      · exact ⟨_, (Except.error.injEq _ _).mp h.symm⟩
      · exact absurd h (by simp)
    · exact ⟨_, (Except.error.injEq _ _).mp h.symm⟩
  · intro subpath base_url bucket obj_path c m; rfl
  · intro files obj_path new_id link e; rfl
  · intro blobs container_url src obj_path m; rfl
  · intro blobs container_url src obj_path m uploadResult; rfl
  · intro subpath base_url bucket obj_path m; rfl

/-- Witness for C3 amended theorem: a concrete S3Error on the MinIO put
is wrapped with the MinIO prefix. -/
theorem upload_wraps_client_errors_witness :
    MinioDriver.upload_file (some "data") "http://localhost:9000/bkt" [] "a.jpg"
        (.error (.s3Error "AccessDenied" "denied"))
      = .error (.driverError ("MinIO driver error: "
          ++ PyExn.text (.s3Error "AccessDenied" "denied"))) :=
  upload_wraps_client_errors.2.1 (some "data") "http://localhost:9000/bkt" [] "a.jpg"
    "AccessDenied" "denied"

/-- Stripping step of the scoped listing: once the empty-prefix branch
is settled, filtering the server listing and stripping the directory
prefix is a filter-and-map over the bucket. -/
theorem minio_list_aux (p : String) (hp : p ≠ "") (l : List MinioObj) :
    (l.filter (fun o => strStartsWith o.object_name p)).filterMap (fun o =>
      if o.is_dir then none
      else if p = "" then some o.object_name
      else if strStartsWith o.object_name p then some (strDrop o.object_name p.length)
      else some o.object_name)
    = (l.filter (fun o => !o.is_dir && strStartsWith o.object_name p)).map
        (fun o => strDrop o.object_name p.length) := by
  simp only [if_neg hp]
  induction l with
  | nil => rfl
  | cons o t ih =>
    by_cases hd : o.is_dir <;> by_cases hs : strStartsWith o.object_name p <;>
      simp [List.filter_cons, List.filterMap_cons, hd, hs, ih]

/-- With a configured (normalized, hence non-empty and not
slash-terminated) subpath and no caller prefix, the effective listing
prefix is the directory form of the scope. -/
theorem minio_list_unfold (s : String) (bucket : List MinioObj)
    (h1 : s ≠ "") (h2 : strEndsWith s "/" = false) :
    MinioDriver.list_files (some s) none bucket
      = (bucket.filter (fun o => strStartsWith o.object_name (s ++ "/"))).filterMap (fun o =>
          if o.is_dir then none
          else if s ++ "/" = "" then some o.object_name
          else if strStartsWith o.object_name (s ++ "/") then
            some (strDrop o.object_name (s ++ "/").length)
          else some o.object_name) := by
  unfold MinioDriver.list_files minioServerList
  have ht : optTruthy (some s) = some s := by simp [optTruthy, h1]
  rw [ht]
  simp only [h2, Bool.false_eq_true, if_false, optTruthy]

/-- C2: with a bucket subpath scope `s` (normalized at construction:
non-empty, no trailing slash), `MinioDriver.list_files` yields exactly
the non-directory-marker objects whose keys start with the directory
prefix `s ++ "/"`, with that prefix stripped from every yielded name;
every yielded name originates from such a key, so a sibling key that
merely shares a raw string prefix with the scope is never yielded and
all returned values are scope-relative. -/
theorem minio_list_scope_directory_bounded (s : String) (bucket : List MinioObj)
    (h1 : s ≠ "") (h2 : strEndsWith s "/" = false) :
    MinioDriver.list_files (some s) none bucket =
      (bucket.filter (fun o => !o.is_dir && strStartsWith o.object_name (s ++ "/"))).map
        (fun o => strDrop o.object_name (s ++ "/").length) ∧
    ∀ n ∈ MinioDriver.list_files (some s) none bucket,
      ∃ o, o ∈ bucket ∧ o.is_dir = false ∧ strStartsWith o.object_name (s ++ "/") = true ∧
        n = strDrop o.object_name (s ++ "/").length := by
  have hmain : MinioDriver.list_files (some s) none bucket =
      (bucket.filter (fun o => !o.is_dir && strStartsWith o.object_name (s ++ "/"))).map
        (fun o => strDrop o.object_name (s ++ "/").length) := by
    rw [minio_list_unfold s bucket h1 h2,
      minio_list_aux (s ++ "/") (slash_suffix_ne_empty s) bucket]
  refine ⟨hmain, ?_⟩
  intro n hn
  rw [hmain] at hn
  obtain ⟨o, ho, hno⟩ := List.mem_map.mp hn
  obtain ⟨hob, hcond⟩ := List.mem_filter.mp ho
  rw [Bool.and_eq_true, Bool.not_eq_true'] at hcond
  exact ⟨o, hob, hcond.1, hcond.2, hno.symm⟩

/-- Witness for C2: with scope "data", a bucket holding the sibling key
"database.csv", the scoped key "data/x" and a directory marker "data/"
lists exactly the scope-relative name "x". -/
theorem minio_list_scope_directory_bounded_witness :
    MinioDriver.list_files (some "data") none
        [⟨"database.csv", false⟩, ⟨"data/x", false⟩, ⟨"data/", true⟩] = ["x"] := by
  have h := (minio_list_scope_directory_bounded "data"
    [⟨"database.csv", false⟩, ⟨"data/x", false⟩, ⟨"data/", true⟩]
    (by decide) (by decide)).1
  rw [h]
  rfl

/-- C5: `MinioDriver.file_exists` issues exactly one `stat_object` point
query on the scoped key and no listing; it returns True exactly when
the query succeeds, False exactly when the backend answers an `S3Error`
with code NoSuchKey, and raises `DriverError` for any other `S3Error`
from the same call. -/
theorem minio_file_exists_point_query (subpath : Option String) (bucket_name obj_path : String)
    (stat : String → Except PyExn Unit) :
    (MinioDriver.file_exists subpath bucket_name obj_path stat).2
        = [MinioCall.statObject bucket_name (MinioDriver.scoped_key subpath obj_path)] ∧
    (∀ b q, MinioCall.listObjects b q ∉
        (MinioDriver.file_exists subpath bucket_name obj_path stat).2) ∧
    ((MinioDriver.file_exists subpath bucket_name obj_path stat).1 = .ok true ↔
      stat (MinioDriver.scoped_key subpath obj_path) = .ok ()) ∧
    ((MinioDriver.file_exists subpath bucket_name obj_path stat).1 = .ok false ↔
      ∃ m, stat (MinioDriver.scoped_key subpath obj_path) = .error (.s3Error "NoSuchKey" m)) ∧
    (∀ code m, stat (MinioDriver.scoped_key subpath obj_path) = .error (.s3Error code m) →
      code ≠ "NoSuchKey" →
      (MinioDriver.file_exists subpath bucket_name obj_path stat).1
        = .error (.driverError ("MinIO driver exists error: "
            ++ PyExn.text (.s3Error code m)))) := by
  refine ⟨rfl, ?_, ?_, ?_, ?_⟩
  · intro b q hmem
    simp [MinioDriver.file_exists] at hmem
  · cases hr : stat (MinioDriver.scoped_key subpath obj_path) with
    | ok u =>
      cases u
      simp [MinioDriver.file_exists, hr]
    | error e =>
      cases e <;> simp [MinioDriver.file_exists, hr]
      split <;> simp
  · cases hr : stat (MinioDriver.scoped_key subpath obj_path) with
    | ok u =>
      cases u
      simp [MinioDriver.file_exists, hr]
    | error e =>
      cases e with
      | osError m => simp [MinioDriver.file_exists, hr]
      | azureError m => simp [MinioDriver.file_exists, hr]
      | googleApiError m => simp [MinioDriver.file_exists, hr]
      | driverError m => simp [MinioDriver.file_exists, hr]
      | s3Error code m =>
        by_cases hc : code = "NoSuchKey"
        · subst hc
          simp [MinioDriver.file_exists, hr]
        · simp [MinioDriver.file_exists, hr, hc]
  · intro code m hr hc
    simp [MinioDriver.file_exists, hr, hc]

/-- Witness for C5: against a bucket holding only the scoped key
"data/a.jpg", the scoped existence check answers True via a single
stat_object call. -/
theorem minio_file_exists_point_query_witness :
    (MinioDriver.file_exists (some "data") "bkt" "a.jpg"
        (minioServerStat [⟨"data/a.jpg", false⟩])).1 = .ok true :=
  (minio_file_exists_point_query (some "data") "bkt" "a.jpg"
    (minioServerStat [⟨"data/a.jpg", false⟩])).2.2.1.mpr rfl

/-- The names yielded by the listing loop are exactly the names of the
files passing the prefix filter, in listing order. -/
theorem gdriveListLoop_names (pfx : Option String) (fs : List GFile) (cache : GCache) :
    (gdriveListLoop pfx fs cache).1
      = (fs.filter (fun f => gdrivePfxMatch pfx f.name)).map GFile.name := by
  induction fs generalizing cache with
  | nil => rfl
  | cons f rest ih =>
    by_cases hf : gdrivePfxMatch pfx f.name <;>
      simp [gdriveListLoop, List.filter_cons, hf, ih]

/-- The cache after the listing loop is the new entries prepended to
the starting cache. -/
theorem gdriveListLoop_cache (pfx : Option String) (fs : List GFile) (cache : GCache) :
    (gdriveListLoop pfx fs cache).2 = gdriveNewEntries pfx fs ++ cache := by
  induction fs generalizing cache with
  | nil => simp [gdriveListLoop, gdriveNewEntries]
  | cons f rest ih =>
    by_cases hf : gdrivePfxMatch pfx f.name <;>
      simp [gdriveListLoop, gdriveNewEntries, List.filter_cons, hf, ih]

/-- Lookup in an appended cache reads the front part first. -/
theorem gcache_lookup_append (a b : GCache) (k : String) :
    GCache.lookup (a ++ b) k
      = match GCache.lookup a k with
        | some v => some v
        | none => GCache.lookup b k := by
  induction a with
  | nil => simp [GCache.lookup]
  | cons kv a ih =>
    by_cases hk : kv.1 == k <;> simp [GCache.lookup, List.find?, hk] <;>
      simpa [GCache.lookup] using ih

/-- Every cache entry written by a listing comes from a listed file
that passed the prefix filter, and stores that file's link (or the
empty string). -/
theorem gcache_lookup_newEntries (pfx : Option String) (fs : List GFile) (k : String)
    (v : String) (h : GCache.lookup (gdriveNewEntries pfx fs) k = some v) :
    ∃ f, f ∈ fs ∧ gdrivePfxMatch pfx f.name = true ∧ f.name = k
      ∧ v = f.webViewLink.getD "" := by
  unfold GCache.lookup at h
  obtain ⟨kv, hfind, hv⟩ := Option.map_eq_some'.mp h
  have hkv := List.find?_some hfind
  have hmem := List.mem_of_find?_eq_some hfind
  unfold gdriveNewEntries at hmem
  rw [List.mem_reverse, List.mem_map] at hmem
  obtain ⟨f, hf, hfe⟩ := hmem
  obtain ⟨hfm, hfp⟩ := List.mem_filter.mp hf
  refine ⟨f, hfm, hfp, ?_, ?_⟩
  · have : kv.1 = k := by simpa using hkv
    rw [← this, ← hfe]
  · rw [← hv, ← hfe]

/-- Every yielded name has an entry among the new cache entries. -/
theorem gcache_lookup_isSome_of_mem (pfx : Option String) (fs : List GFile) (n : String)
    (h : n ∈ (fs.filter (fun f => gdrivePfxMatch pfx f.name)).map GFile.name) :
    (GCache.lookup (gdriveNewEntries pfx fs) n).isSome := by
  rw [List.mem_map] at h
  obtain ⟨f, hf, hfn⟩ := h
  unfold GCache.lookup
  rw [Option.isSome_map']
  rw [List.find?_isSome]
  refine ⟨(f.name, f.webViewLink.getD ""), ?_, by simp [hfn]⟩
  unfold gdriveNewEntries
  rw [List.mem_reverse, List.mem_map]
  exact ⟨f, hf, rfl⟩

/-- C4: whenever `GoogleDriveDriver.list_files` yields a file name, that
name and the sharable link already returned by the listing are stored
in the URL cache; only yielded names are ever added beyond the
pre-existing entries; and a subsequent `get_file_url` for a yielded
name is answered from the cache with zero additional backend calls. -/
theorem gdrive_list_populates_cache (pfx : Option String) (fs : List GFile)
    (cache : GCache) :
    (∀ n ∈ (GoogleDriveDriver.list_files pfx fs (some cache)).1,
      ∃ f, f ∈ fs ∧ f.name = n ∧
        GCache.lookup (GoogleDriveDriver.list_files pfx fs (some cache)).2 n
          = some (f.webViewLink.getD "")) ∧
    (∀ k, (GCache.lookup (GoogleDriveDriver.list_files pfx fs (some cache)).2 k).isSome →
      k ∈ (GoogleDriveDriver.list_files pfx fs (some cache)).1 ∨
        (GCache.lookup cache k).isSome) ∧
    (∀ n ∈ (GoogleDriveDriver.list_files pfx fs (some cache)).1,
      GoogleDriveDriver.get_file_url (some (GoogleDriveDriver.list_files pfx fs (some cache)).2)
          fs n
        = (.ok (GCache.value (GoogleDriveDriver.list_files pfx fs (some cache)).2 n), 0)) := by
  have hn : (GoogleDriveDriver.list_files pfx fs (some cache)).1
      = (fs.filter (fun f => gdrivePfxMatch pfx f.name)).map GFile.name :=
    gdriveListLoop_names pfx fs cache
  have hcc : (GoogleDriveDriver.list_files pfx fs (some cache)).2
      = gdriveNewEntries pfx fs ++ cache :=
    gdriveListLoop_cache pfx fs cache
  refine ⟨?_, ?_, ?_⟩
  · intro n hmem
    rw [hn] at hmem
    have hsome := gcache_lookup_isSome_of_mem pfx fs n hmem
    obtain ⟨v, hv⟩ := Option.isSome_iff_exists.mp hsome
    have hl : GCache.lookup (GoogleDriveDriver.list_files pfx fs (some cache)).2 n = some v := by
      rw [hcc, gcache_lookup_append, hv]
    obtain ⟨f, hf, _, hfn, hfv⟩ := gcache_lookup_newEntries pfx fs n v hv
    exact ⟨f, hf, hfn, by rw [hl, hfv]⟩
  · intro k hk
    rw [hcc, gcache_lookup_append] at hk
    cases hnew : GCache.lookup (gdriveNewEntries pfx fs) k with
    | some v =>
      left
      obtain ⟨f, hf, hfp, hfn, _⟩ := gcache_lookup_newEntries pfx fs k v hnew
      rw [hn, List.mem_map]
      exact ⟨f, List.mem_filter.mpr ⟨hf, hfp⟩, hfn⟩
    | none =>
      right
      rw [hnew] at hk
      exact hk
  · intro n hmem
    rw [hn] at hmem
    have hsome := gcache_lookup_isSome_of_mem pfx fs n hmem
    obtain ⟨v, hv⟩ := Option.isSome_iff_exists.mp hsome
    have hl : GCache.lookup (GoogleDriveDriver.list_files pfx fs (some cache)).2 n = some v := by
      rw [hcc, gcache_lookup_append, hv]
    have hg : GoogleDriveDriver.get_file_url
        (some (GoogleDriveDriver.list_files pfx fs (some cache)).2) fs n
        = match GCache.lookup (GoogleDriveDriver.list_files pfx fs (some cache)).2 n with
          | some u => (Except.ok u, 0)
          | none => gdriveGetFileUrlQuery fs n := rfl
    rw [hg, hl]
    unfold GCache.value
    rw [hl]
    rfl

/-- Witness for C4: after listing a one-file folder, that file's URL is
answered from the cache with zero backend calls. -/
theorem gdrive_list_populates_cache_witness :
    GoogleDriveDriver.get_file_url
        (some (GoogleDriveDriver.list_files none
          [⟨"id1", "a.txt", some "https://drive/a"⟩] (some [])).2)
        [⟨"id1", "a.txt", some "https://drive/a"⟩] "a.txt"
      = (.ok (GCache.value
          (GoogleDriveDriver.list_files none
            [⟨"id1", "a.txt", some "https://drive/a"⟩] (some [])).2 "a.txt"), 0) :=
  (gdrive_list_populates_cache none [⟨"id1", "a.txt", some "https://drive/a"⟩]
    []).2.2 "a.txt" (by decide)

/-- An address accepted by the email regex is non-empty (the local part
requires at least one character), so the `if email:` truthiness check
in the init loop passes for every validated address. -/
theorem emailRegexMatch_ne_empty {e : String} (h : emailRegexMatch e = true) : e ≠ "" := by
  intro he
  rw [he] at h
  exact absurd h (by decide)

/-- C6: during GoogleDriveDriver construction, collaborator addresses
failing the email syntax check are skipped silently (filtered out /
dropped before any grant), and for each valid address a grant call is
issued only when the address does not already hold a permission
(case-insensitively); in particular, two valid addresses of which the
first already holds a permission produce exactly one grant call. -/
theorem gdrive_share_grants_once :
    (∀ l, GoogleDriveDriver.get_share_with (.list l) = .ok (l.filter emailRegexMatch)) ∧
    (∀ s, GoogleDriveDriver.get_share_with (.str s)
      = .ok (if emailRegexMatch s then [s] else [])) ∧
    (∀ e perms, emailRegexMatch e = true →
      GoogleDriveDriver.has_already_permission perms e = true →
      GoogleDriveDriver.share_loop [e] perms = (perms, 0)) ∧
    (∀ e perms, emailRegexMatch e = true →
      GoogleDriveDriver.has_already_permission perms e = false →
      GoogleDriveDriver.share_loop [e] perms = (e :: perms, 1)) ∧
    (∀ e1 e2 perms, emailRegexMatch e1 = true → emailRegexMatch e2 = true →
      GoogleDriveDriver.has_already_permission perms e1 = true →
      GoogleDriveDriver.has_already_permission perms e2 = false →
      GoogleDriveDriver.init_sharing (.list [e1, e2]) perms = .ok (e2 :: perms, 1)) := by
  refine ⟨fun l => rfl, fun s => rfl, ?_, ?_, ?_⟩
  · intro e perms he hp
    simp [GoogleDriveDriver.share_loop, emailRegexMatch_ne_empty he, hp]
  · intro e perms he hp
    simp [GoogleDriveDriver.share_loop, emailRegexMatch_ne_empty he, hp]
  · intro e1 e2 perms he1 he2 hp1 hp2
    unfold GoogleDriveDriver.init_sharing GoogleDriveDriver.get_share_with
    simp only [List.filter_cons, he1, he2, List.filter_nil, if_true]
    simp [GoogleDriveDriver.share_loop, emailRegexMatch_ne_empty he1,
      emailRegexMatch_ne_empty he2, hp1, hp2]

/-- Witness for C6: two syntactically valid addresses, the first already
holding a permission on the folder (in different letter case), produce
exactly one grant call. -/
theorem gdrive_share_grants_once_witness :
    GoogleDriveDriver.init_sharing
        (.list ["user.one@example.com", "user.two@example.org"]) ["User.One@example.com"]
      = .ok ("user.two@example.org" :: ["User.One@example.com"], 1) :=
  gdrive_share_grants_once.2.2.2.2 "user.one@example.com" "user.two@example.org"
    ["User.One@example.com"] (by decide) (by decide) (by decide) (by decide)

/-- A key just stored by `fput_object` is found by `stat_object`. -/
theorem minioServerStat_put (bucket : List MinioObj) (k : String) :
    minioServerStat (minioServerPut bucket k) k = .ok () := by
  simp [minioServerStat, minioServerPut]

/-- C1: for each of the four drivers, when `upload_file` succeeds for an
Object Path, `file_exists` on the resulting backend state answers True
and `get_file_url` returns a non-empty backend-appropriate locator
(the local driver needs a configured non-empty destination root, which
construction guarantees; the Drive backend is assumed to assign a
non-empty webViewLink to the created file). -/
theorem upload_then_exists_and_url :
    (∀ fs dest_root src obj_path ret fs2, dest_root ≠ "" →
      LocalDriver.upload_file fs dest_root src obj_path = .ok (ret, fs2) →
      LocalDriver.file_exists fs2 dest_root obj_path = true ∧
      LocalDriver.get_file_url dest_root obj_path ≠ "") ∧
    (∀ subpath secure endpoint region bucket_name bucket obj_path r url bucket2,
      MinioDriver.upload_file subpath
          (MinioDriver.base_url secure endpoint region bucket_name) bucket obj_path r
        = .ok (url, bucket2) →
      (MinioDriver.file_exists subpath bucket_name obj_path (minioServerStat bucket2)).1
        = .ok true ∧
      url ≠ "" ∧
      MinioDriver.get_file_url subpath
          (MinioDriver.base_url secure endpoint region bucket_name) obj_path ≠ "") ∧
    (∀ files obj_path new_id u, u ≠ "" →
      GoogleDriveDriver.upload_file files obj_path new_id (some u) (.ok ())
        = .ok (some u, ⟨new_id, obj_path, some u⟩ :: files) ∧
      (GoogleDriveDriver.file_exists none (⟨new_id, obj_path, some u⟩ :: files) obj_path).1
        = .ok true ∧
      (GoogleDriveDriver.get_file_url none (⟨new_id, obj_path, some u⟩ :: files) obj_path).1
        = .ok u ∧ u ≠ "") ∧
    (∀ blobs container_url src obj_path o r url blobs2,
      AzureDriver.upload_file blobs container_url src obj_path o r = .ok (url, blobs2) →
      AzureDriver.file_exists blobs2 obj_path = .ok true ∧
      url ≠ "" ∧
      AzureDriver.get_file_url container_url obj_path ≠ "") := by
  refine ⟨?_, ?_, ?_, ?_⟩
  · intro fs dest_root src obj_path ret fs2 hd h
    simp only [LocalDriver.upload_file] at h
    by_cases h1 : fs.contains src
    · rw [if_pos h1] at h
      by_cases h2 : src = osPathJoin dest_root obj_path
      · rw [if_pos h2] at h
        exact absurd h (by simp)
      · rw [if_neg h2] at h
        simp only [Except.ok.injEq, Prod.mk.injEq] at h
        obtain ⟨h3, h4⟩ := h
        subst h3
        subst h4
        constructor
        · simp [LocalDriver.file_exists, List.contains_cons]
        · exact osPathJoin_ne_empty dest_root obj_path hd
    · rw [if_neg h1] at h
      exact absurd h (by simp)
  · intro subpath secure endpoint region bucket_name bucket obj_path r url bucket2 h
    cases r with
    | error e =>
      exact absurd h (by simp [MinioDriver.upload_file])
    | ok u =>
      cases u
      simp only [MinioDriver.upload_file, Except.ok.injEq, Prod.mk.injEq] at h
      obtain ⟨h3, h4⟩ := h
      subst h3
      subst h4
      refine ⟨?_, mid_slash_ne_empty _ _, mid_slash_ne_empty _ _⟩
      simp [MinioDriver.file_exists, minioServerStat_put]
  · intro files obj_path new_id u hu
    have hlink : GoogleDriveDriver.file_link (⟨new_id, obj_path, some u⟩ :: files) new_id
        = .ok (some u) := by
      unfold GoogleDriveDriver.file_link
      rw [List.find?_cons_of_pos _ (by simp)]
    refine ⟨?_, ?_, ?_, hu⟩
    · simp only [GoogleDriveDriver.upload_file, hlink]
    · simp only [GoogleDriveDriver.file_exists, gdriveFileExistsQuery]
      rw [List.find?_cons_of_pos _ (by simp)]
      rfl
    · simp only [GoogleDriveDriver.get_file_url, gdriveGetFileUrlQuery]
      rw [List.find?_cons_of_pos _ (by simp)]
      rfl
  · intro blobs container_url src obj_path o r url blobs2 h
    cases o with
    | error e =>
      exact absurd h (by simp [AzureDriver.upload_file])
    | ok uo =>
      cases uo
      cases r with
      | error e =>
        exact absurd h (by simp [AzureDriver.upload_file])
      | ok ur =>
        cases ur
        simp only [AzureDriver.upload_file, Except.ok.injEq, Prod.mk.injEq] at h
        obtain ⟨h3, h4⟩ := h
        subst h3
        subst h4
        refine ⟨?_, mid_slash_ne_empty _ _, mid_slash_ne_empty _ _⟩
        simp [AzureDriver.file_exists, List.contains_cons]

/-- Witness for C1: one concrete successful upload per driver, followed
by a positive existence answer and a non-empty locator. -/
theorem upload_then_exists_and_url_witness :
    (LocalDriver.file_exists (osPathJoin "/dst" "pics/a.jpg" :: ["/tmp/a.jpg"])
        "/dst" "pics/a.jpg" = true ∧
      LocalDriver.get_file_url "/dst" "pics/a.jpg" ≠ "") ∧
    ((MinioDriver.file_exists (some "data") "bkt" "a.jpg"
        (minioServerStat (minioServerPut []
          (MinioDriver.scoped_key (some "data") "a.jpg")))).1 = .ok true ∧
      MinioDriver.base_url false "localhost:9000" none "bkt" ++ "/"
          ++ MinioDriver.scoped_key (some "data") "a.jpg" ≠ "" ∧
      MinioDriver.get_file_url (some "data")
          (MinioDriver.base_url false "localhost:9000" none "bkt") "a.jpg" ≠ "") ∧
    (GoogleDriveDriver.upload_file [] "a.jpg" "id7" (some "https://drive/view") (.ok ())
        = .ok (some "https://drive/view", [⟨"id7", "a.jpg", some "https://drive/view"⟩]) ∧
      (GoogleDriveDriver.file_exists none
        [⟨"id7", "a.jpg", some "https://drive/view"⟩] "a.jpg").1 = .ok true ∧
      (GoogleDriveDriver.get_file_url none
        [⟨"id7", "a.jpg", some "https://drive/view"⟩] "a.jpg").1 = .ok "https://drive/view" ∧
      ("https://drive/view" : String) ≠ "") ∧
    (AzureDriver.file_exists ["a.jpg"] "a.jpg" = .ok true ∧
      AzureDriver.blob_url "https://acct.blob.core.windows.net/media" "a.jpg" ≠ "" ∧
      AzureDriver.get_file_url "https://acct.blob.core.windows.net/media" "a.jpg" ≠ "") :=
  ⟨upload_then_exists_and_url.1 ["/tmp/a.jpg"] "/dst" "/tmp/a.jpg" "pics/a.jpg" _ _
      (by decide) rfl,
    upload_then_exists_and_url.2.1 (some "data") false "localhost:9000" none "bkt" []
      "a.jpg" (.ok ()) _ _ rfl,
    upload_then_exists_and_url.2.2.1 [] "a.jpg" "id7" "https://drive/view" (by decide),
    upload_then_exists_and_url.2.2.2 [] "https://acct.blob.core.windows.net/media"
      "/tmp/a.jpg" "a.jpg" (.ok ()) (.ok ()) _ _ rfl⟩
